import Mathlib

/-!
Verification of the Media Device Management subsystem
(`src/script/media/MediaDevicesHandler.ts` of wire-webapp).

The handler state, the configuration constants and every operation are
shallowly embedded below, translated line by line from the TypeScript
source.  Knockout observable arrays become plain Lean lists; promise
chains become explicit result passing via `Except`; the asynchronous
external collaborators (the device enumerator, the desktop capturer, the
persistence store) become explicit parameters of the operations that
consume them.
-/

/-- The four device categories, `type DeviceTypes` in the source. -/
inductive DeviceTypes where
  | audioInput
  | audioOutput
  | screenInput
  | videoInput
  deriving DecidableEq, Repr

/-- Modelled from the spec: the `MediaDeviceType` enum is imported from
`./MediaDeviceType`, which is not among the provided sources.  Its four
members `AUDIO_INPUT`, `AUDIO_OUTPUT`, `SCREEN_INPUT`, `VIDEO_INPUT` are
used both as persistence-store keys and as the device-kind values the
refresh partitioning compares against (spec §3: a fixed enumeration of
four categories). -/
inductive MediaDeviceType where
  | AUDIO_INPUT
  | AUDIO_OUTPUT
  | SCREEN_INPUT
  | VIDEO_INPUT
  deriving DecidableEq, Repr

/-- One enumerated device (`MediaDeviceInfo`).  `deviceId` is the primary
identifier; `id` is the secondary/legacy attribute the source reads via
`(device as any).id`; an absent/undefined attribute is modelled as the
empty string, matching JavaScript string falsiness. -/
structure MediaDeviceInfo where
  deviceId : String
  id : String
  kind : MediaDeviceType
  label : String
  deriving DecidableEq, Repr

/-- `availableDevices`: one ordered device list per category
(`Record<DeviceTypes, ko.ObservableArray<MediaDeviceInfo>>`). -/
structure Devices where
  audioInput : List MediaDeviceInfo
  audioOutput : List MediaDeviceInfo
  screenInput : List MediaDeviceInfo
  videoInput : List MediaDeviceInfo
  deriving DecidableEq, Repr

/-- Look up the list of one category, the record read `this.availableDevices[deviceType]()`. -/
def Devices.get (d : Devices) : DeviceTypes → List MediaDeviceInfo
  | .audioInput => d.audioInput
  | .audioOutput => d.audioOutput
  | .screenInput => d.screenInput
  | .videoInput => d.videoInput

/-- `currentDeviceId`: the desired device id per category
(`Record<DeviceTypes, ko.Observable<string>>`). -/
structure DeviceIds where
  audioInput : String
  audioOutput : String
  screenInput : String
  videoInput : String
  deriving DecidableEq, Repr

/-- Read the desired id of one category, `this.currentDeviceId[deviceType]()`. -/
def DeviceIds.get (ids : DeviceIds) : DeviceTypes → String
  | .audioInput => ids.audioInput
  | .audioOutput => ids.audioOutput
  | .screenInput => ids.screenInput
  | .videoInput => ids.videoInput

/-- Write the desired id of one category, `this.currentDeviceId[deviceType](value)`. -/
def DeviceIds.set (ids : DeviceIds) : DeviceTypes → String → DeviceIds
  | .audioInput, v => { ids with audioInput := v }
  | .audioOutput, v => { ids with audioOutput := v }
  | .screenInput, v => { ids with screenInput := v }
  | .videoInput, v => { ids with videoInput := v }

/-- The mutable state of a `MediaDevicesHandler` instance. -/
structure HandlerState where
  availableDevices : Devices
  currentDeviceId : DeviceIds
  deriving DecidableEq, Repr

/-- `MediaDevicesHandler.CONFIG.DEFAULT_DEVICE`: the fixed per-category
default device id. -/
def DEFAULT_DEVICE : DeviceTypes → String
  | .audioInput => "default"
  | .audioOutput => "default"
  | .screenInput => "screen"
  | .videoInput => "default"

/-- The identifier the availability check reads from a device:
`device.deviceId || (device as any).id` — JavaScript `||` yields the
left operand when it is truthy (a non-empty string), the right operand
otherwise. -/
def deviceIdOrId (device : MediaDeviceInfo) : String :=
  if device.deviceId = "" then device.id else device.deviceId

/-- `getCurrentAvailableDeviceId` (constructor-local helper, source lines
83–95): empty list yields the empty string; a device whose
`deviceId || id` equals the current desired id makes the desired id
available; otherwise the category default is returned. -/
def getCurrentAvailableDeviceId (st : HandlerState) (deviceType : DeviceTypes) : String :=
  let currentDeviceId := st.currentDeviceId.get deviceType
  if (st.availableDevices.get deviceType).length = 0 then
    ""
  else
    match (st.availableDevices.get deviceType).find?
        (fun device => deviceIdOrId device == currentDeviceId) with
    | some _ => currentDeviceId
    | none => DEFAULT_DEVICE deviceType

/-- `deviceSupport[deviceType]`: `!!this.availableDevices[deviceType]().length`. -/
def deviceSupport (st : HandlerState) (deviceType : DeviceTypes) : Bool :=
  (st.availableDevices.get deviceType).length != 0

/-- `_removeAllDevices` (source lines 235–239): clears the audio-input,
audio-output and video-input lists; the screen-input list is not touched. -/
def removeAllDevices (d : Devices) : Devices :=
  { d with audioInput := [], audioOutput := [], videoInput := [] }

/-- Errors a refresh can surface. -/
inductive RefreshError where
  /-- `navigator.mediaDevices.enumerateDevices()` rejected; the handler
  logs and rethrows the same error. -/
  | enumerationFailed (message : String)
  /-- the enumeration resolved with a falsy value and the handler threw a
  fresh error carrying the message "No media devices found". -/
  | noMediaDevicesFound
  deriving DecidableEq, Repr

/-- The accumulator of the partitioning loop inside `refreshMediaDevices`:
the three local arrays `audioInputDevices`, `audioOutputDevices`,
`videoInputDevices`. -/
structure PartitionAcc where
  audioInputDevices : List MediaDeviceInfo
  audioOutputDevices : List MediaDeviceInfo
  videoInputDevices : List MediaDeviceInfo
  deriving DecidableEq, Repr

/-- One iteration of `mediaDevices.forEach(...)` (source lines 175–192):
a `switch` on the device kind pushes the device onto the matching local
array; kinds without a case (screen input) are dropped. -/
def partitionStep (acc : PartitionAcc) (mediaDevice : MediaDeviceInfo) : PartitionAcc :=
  match mediaDevice.kind with
  | .AUDIO_INPUT => { acc with audioInputDevices := acc.audioInputDevices ++ [mediaDevice] }
  | .AUDIO_OUTPUT => { acc with audioOutputDevices := acc.audioOutputDevices ++ [mediaDevice] }
  | .VIDEO_INPUT => { acc with videoInputDevices := acc.videoInputDevices ++ [mediaDevice] }
  | .SCREEN_INPUT => acc

/-- The whole `forEach` loop over the enumerated devices. -/
def partitionDevices (mediaDevices : List MediaDeviceInfo) : PartitionAcc :=
  mediaDevices.foldl partitionStep ⟨[], [], []⟩

/-- `refreshMediaDevices` (source lines 160–203).  The outcome of the
`navigator.mediaDevices.enumerateDevices()` promise is passed in
explicitly: `Except.error msg` models a rejection, `Except.ok none` a
resolution with a falsy value, `Except.ok (some l)` a resolution with
device list `l`.  On rejection the `.catch` clause rethrows, so the
`.then` body never runs; otherwise `_removeAllDevices` runs first, then
the list (when truthy) is partitioned by kind and appended via
`koArrayPushAll` (Util/util, not among the provided sources; it pushes
all given items onto the observable array, here modelled as list
append — the spec, §4.1, calls the combined effect an atomic wholesale
replacement of the stored sequence of each category). -/
def refreshMediaDevices (st : HandlerState)
    (enumerationResult : Except String (Option (List MediaDeviceInfo))) :
    HandlerState × Except RefreshError (List MediaDeviceInfo) :=
  match enumerationResult with
  | .error message => (st, .error (.enumerationFailed message))
  | .ok mediaDevices =>
    let cleared : HandlerState :=
      { st with availableDevices := removeAllDevices st.availableDevices }
    match mediaDevices with
    | none => (cleared, .error .noMediaDevicesFound)
    | some l =>
      let p := partitionDevices l
      ({ cleared with availableDevices :=
          { cleared.availableDevices with
            audioInput := cleared.availableDevices.audioInput ++ p.audioInputDevices,
            audioOutput := cleared.availableDevices.audioOutput ++ p.audioOutputDevices,
            videoInput := cleared.availableDevices.videoInput ++ p.videoInputDevices } },
       .ok l)

/-- `thumbnailSize` of the desktop-capturer options. -/
structure ThumbnailSize where
  height : Nat
  width : Nat
  deriving DecidableEq, Repr

/-- The options object built inside `getScreenSources` (source lines 211–217). -/
structure DesktopCapturerOptions where
  thumbnailSize : ThumbnailSize
  types : List String
  deriving DecidableEq, Repr

/-- The concrete options value: thumbnail 312×176 and
`types: [MediaDevicesHandler.CONFIG.DEFAULT_DEVICE.screenInput]`. -/
def screenSourceOptions : DesktopCapturerOptions :=
  { thumbnailSize := { height := 176, width := 312 },
    types := [DEFAULT_DEVICE .screenInput] }

/-- Errors `getScreenSources` can surface. -/
inductive ScreenSourcesError where
  /-- `window.desktopCapturer` is absent: the member access
  `window.desktopCapturer.getSources` throws inside the promise
  executor, rejecting the promise — a failure distinguishable from a
  callback-delivered enumeration error. -/
  | capabilityUnavailable
  /-- the capturer invoked the callback with an error; `reject(error)`. -/
  | getSourcesFailed (message : String)
  deriving DecidableEq, Repr

/-- `getScreenSources` (source lines 209–228).  The optional
`window.desktopCapturer` is passed explicitly; when present it is the
callback-based `getSources`, modelled as a function from the options to
either an error or the source list.  Only the success path writes
`this.availableDevices.screenInput(screenSources)` — a wholesale
replacement. -/
def getScreenSources (st : HandlerState)
    (desktopCapturer : Option (DesktopCapturerOptions → Except String (List MediaDeviceInfo))) :
    HandlerState × Except ScreenSourcesError (List MediaDeviceInfo) :=
  match desktopCapturer with
  | none => (st, .error .capabilityUnavailable)
  | some getSources =>
    match getSources screenSourceOptions with
    | .error message => (st, .error (.getSourcesFailed message))
    | .ok screenSources =>
      ({ st with availableDevices :=
          { st.availableDevices with screenInput := screenSources } },
       .ok screenSources)

/-- The persistence store: a key/value map from `MediaDeviceType` keys to
stored strings, `none` when no value is stored under the key. -/
def Store : Type := MediaDeviceType → Option String

/-- Modelled from the spec: `loadValue` (Util/StorageUtil) is not among
the provided sources.  Spec §4.2: "Initial values are read from
PersistenceStore at construction; a missing stored value yields the
empty string (no preference)." -/
def loadValue (store : Store) (key : MediaDeviceType) : String :=
  (store key).getD ""

/-- Modelled from the spec: `storeValue` (Util/StorageUtil) is not among
the provided sources.  Spec §6: `store(key, value)` writes the value
under the fixed category key. -/
def storeValue (key : MediaDeviceType) (value : String) (store : Store) : Store :=
  fun k => if k = key then some value else store k

/-- The `MediaDevicesHandler` constructor (source lines 66–112): every
device list starts empty and every desired id is loaded from the
persistence store under its `MediaDeviceType` key. -/
def mkMediaDevicesHandler (store : Store) : HandlerState :=
  { availableDevices := { audioInput := [], audioOutput := [], screenInput := [], videoInput := [] },
    currentDeviceId :=
      { audioInput := loadValue store .AUDIO_INPUT,
        audioOutput := loadValue store .AUDIO_OUTPUT,
        screenInput := loadValue store .SCREEN_INPUT,
        videoInput := loadValue store .VIDEO_INPUT } }

/-- `_subscribeToObservables` (source lines 142–154): exactly three
subscriptions forward desired-id changes to the store — audio input,
audio output and video input; no subscription exists for screen input. -/
def persistenceSubscription : DeviceTypes → Option MediaDeviceType
  | .audioInput => some .AUDIO_INPUT
  | .audioOutput => some .AUDIO_OUTPUT
  | .videoInput => some .VIDEO_INPUT
  | .screenInput => none

/-- Handler state together with the persistence store it is wired to. -/
structure SystemState where
  handler : HandlerState
  store : Store

/-- Writing a desired device id after `_subscribeToObservables` has run:
the observable is updated, and when the category has a persistence
subscription the subscriber calls `storeValue` with the new id. -/
def setCurrentDeviceId (s : SystemState) (deviceType : DeviceTypes)
    (mediaDeviceId : String) : SystemState :=
  { handler := { s.handler with
      currentDeviceId := s.handler.currentDeviceId.set deviceType mediaDeviceId },
    store :=
      match persistenceSubscription deviceType with
      | some key => storeValue key mediaDeviceId s.store
      | none => s.store }

/-- A handler state with empty lists and no desired ids, used to
instantiate universally quantified theorems at a concrete state. -/
def emptyHandlerState : HandlerState :=
  mkMediaDevicesHandler (fun _ => none)

/-- The partitioning loop is the same as filtering the enumerated list by
each supported kind, in enumeration order. -/
theorem foldl_partitionStep (l : List MediaDeviceInfo) (acc : PartitionAcc) :
    l.foldl partitionStep acc =
      { audioInputDevices :=
          acc.audioInputDevices ++ l.filter (fun d => d.kind == MediaDeviceType.AUDIO_INPUT),
        audioOutputDevices :=
          acc.audioOutputDevices ++ l.filter (fun d => d.kind == MediaDeviceType.AUDIO_OUTPUT),
        videoInputDevices :=
          acc.videoInputDevices ++ l.filter (fun d => d.kind == MediaDeviceType.VIDEO_INPUT) } := by
  induction l generalizing acc with
  | nil => simp
  | cons d l ih =>
    rw [List.foldl_cons, ih]
    cases h : d.kind <;>
      simp [partitionStep, h, List.filter_cons]

/-- C2: after a successful refresh whose enumeration returned list `l`,
each of the audio-input, audio-output and video-input sequences equals
exactly the devices of that kind in `l`, in enumeration order — for
every prior state, so nothing from any earlier refresh survives. -/
theorem refresh_replace_not_merge (st : HandlerState) (l : List MediaDeviceInfo) :
    (refreshMediaDevices st (.ok (some l))).1.availableDevices.audioInput
        = l.filter (fun d => d.kind == MediaDeviceType.AUDIO_INPUT)
  ∧ (refreshMediaDevices st (.ok (some l))).1.availableDevices.audioOutput
        = l.filter (fun d => d.kind == MediaDeviceType.AUDIO_OUTPUT)
  ∧ (refreshMediaDevices st (.ok (some l))).1.availableDevices.videoInput
        = l.filter (fun d => d.kind == MediaDeviceType.VIDEO_INPUT)
  ∧ (refreshMediaDevices st (.ok (some l))).2 = .ok l := by
  simp [refreshMediaDevices, removeAllDevices, partitionDevices, foldl_partitionStep]

/-- C4: when the enumerator rejects, `refreshMediaDevices` returns the
prior state completely unchanged and propagates the error to its caller. -/
theorem refresh_rejection_preserves_state (st : HandlerState) (message : String) :
    refreshMediaDevices st (.error message) = (st, .error (.enumerationFailed message)) :=
  rfl

/-- C8: no matter what the enumeration produced — rejection, falsy result,
or any device list with devices of any kinds — `refreshMediaDevices`
leaves the screen-input device list exactly as it was. -/
theorem refresh_preserves_screen_input (st : HandlerState)
    (enumerationResult : Except String (Option (List MediaDeviceInfo))) :
    (refreshMediaDevices st enumerationResult).1.availableDevices.screenInput
      = st.availableDevices.screenInput := by
  cases enumerationResult with
  | error message => rfl
  | ok mediaDevices =>
    cases mediaDevices with
    | none => rfl
    | some l => simp [refreshMediaDevices, removeAllDevices]

/-- C9: when the enumeration resolves with a falsy value, the handler
first clears the audio-input, audio-output and video-input lists and then
rejects with the no-media-devices error — unlike the rejection path,
which keeps the prior state intact. -/
theorem refresh_falsy_clears_then_rejects (st : HandlerState) :
    refreshMediaDevices st (.ok none)
      = ({ st with availableDevices := removeAllDevices st.availableDevices },
         .error .noMediaDevicesFound)
  ∧ (refreshMediaDevices st (.ok none)).1.availableDevices.audioInput = []
  ∧ (refreshMediaDevices st (.ok none)).1.availableDevices.audioOutput = []
  ∧ (refreshMediaDevices st (.ok none)).1.availableDevices.videoInput = []
  ∧ (∀ message, (refreshMediaDevices st (.error message)).1 = st) := by
  refine ⟨rfl, rfl, rfl, rfl, fun message => rfl⟩

/-- C1: the resolved available id of every category and desired id is:
empty string when the known-device list of the category is empty;
otherwise the desired id itself when some known device of the category
matches it; otherwise the fixed category default — and the defaults are
exactly "default" for audio input, audio output and video input, and
"screen" for screen input. -/
theorem resolve_available_device_id (st : HandlerState) (deviceType : DeviceTypes) :
    (getCurrentAvailableDeviceId st deviceType =
      if st.availableDevices.get deviceType = [] then ""
      else if ∃ device ∈ st.availableDevices.get deviceType,
          deviceIdOrId device = st.currentDeviceId.get deviceType then
        st.currentDeviceId.get deviceType
      else DEFAULT_DEVICE deviceType)
  ∧ DEFAULT_DEVICE .audioInput = "default"
  ∧ DEFAULT_DEVICE .audioOutput = "default"
  ∧ DEFAULT_DEVICE .videoInput = "default"
  ∧ DEFAULT_DEVICE .screenInput = "screen" := by
  refine ⟨?_, rfl, rfl, rfl, rfl⟩
  unfold getCurrentAvailableDeviceId
  by_cases hempty : st.availableDevices.get deviceType = []
  · simp [hempty]
  · rw [if_neg hempty, if_neg (by simpa [List.length_eq_zero] using hempty)]
    cases hf : (st.availableDevices.get deviceType).find?
        (fun device => deviceIdOrId device == st.currentDeviceId.get deviceType) with
    | none =>
      rw [if_neg]
      intro ⟨device, hmem, heq⟩
      have := List.find?_eq_none.mp hf device hmem
      simp [heq] at this
    | some device =>
      rw [if_pos]
      refine ⟨device, List.mem_of_find?_eq_some hf, ?_⟩
      have := List.find?_some hf
      simpa using this

/-- A microphone used to instantiate the refresh-ordering scenario. -/
def micOne : MediaDeviceInfo :=
  { deviceId := "mic1", id := "", kind := .AUDIO_INPUT, label := "Microphone 1" }

/-- A second microphone used to instantiate the refresh-ordering scenario. -/
def micTwo : MediaDeviceInfo :=
  { deviceId := "mic2", id := "", kind := .AUDIO_INPUT, label := "Microphone 2" }

/-- C3 counterexample: refresh R1 is issued before refresh R2, R2
enumerates `[micTwo]` and its result arrives first, then the slower R1
result `[micOne]` arrives.  Each arriving result is applied to the state
unconditionally — the handler keeps no refresh sequence number — so the
final audio-input list is R1's `[micOne]`, not R2's `[micTwo]`, refuting
the claim that the final state reflects the newest refresh. -/
theorem stale_refresh_result_overwrites :
    ((refreshMediaDevices
        (refreshMediaDevices emptyHandlerState (.ok (some [micTwo]))).1
        (.ok (some [micOne]))).1.availableDevices.audioInput = [micOne])
  ∧ ((refreshMediaDevices
        (refreshMediaDevices emptyHandlerState (.ok (some [micTwo]))).1
        (.ok (some [micOne]))).1.availableDevices.audioInput ≠ [micTwo]) := by
  constructor
  · rfl
  · decide

/-- C3 amended: the handler has no refresh sequence number and never
discards a result; each enumeration result is applied when it arrives
and fully determines the partitioned lists, so after out-of-order
completion the state equals the one produced by the last-arriving
result alone — the OLDER refresh wins, independent of whatever the
newer result had put there. -/
theorem refresh_last_arrival_wins (st : HandlerState)
    (newerResult olderResult : List MediaDeviceInfo) :
    (refreshMediaDevices
        (refreshMediaDevices st (.ok (some newerResult))).1
        (.ok (some olderResult))).1
      = (refreshMediaDevices st (.ok (some olderResult))).1 := by
  simp [refreshMediaDevices, removeAllDevices, partitionDevices, foldl_partitionStep]

/-- A device whose primary and secondary identifier attributes differ,
with both attributes non-empty. -/
def legacyDevice : MediaDeviceInfo :=
  { deviceId := "internal-guid", id := "legacy-id", kind := .AUDIO_INPUT,
    label := "Legacy microphone" }

/-- A handler state whose audio-input list holds only `legacyDevice` and
whose desired audio-input id equals the secondary identifier of that
device. -/
def legacyState : HandlerState :=
  { availableDevices :=
      { audioInput := [legacyDevice], audioOutput := [], screenInput := [], videoInput := [] },
    currentDeviceId :=
      { audioInput := "legacy-id", audioOutput := "", screenInput := "", videoInput := "" } }

/-- C5 counterexample: the desired id "legacy-id" equals the secondary
identifier attribute of the only known device, yet resolution returns
the category default "default" instead of the desired id — because
`device.deviceId || device.id` reads only the non-empty primary
attribute, the secondary attribute is NOT checked for this device. -/
theorem secondary_id_not_always_checked :
    legacyDevice.id = "legacy-id"
  ∧ legacyState.currentDeviceId.get .audioInput = "legacy-id"
  ∧ legacyState.availableDevices.get .audioInput = [legacyDevice]
  ∧ getCurrentAvailableDeviceId legacyState .audioInput = "default"
  ∧ getCurrentAvailableDeviceId legacyState .audioInput ≠ "legacy-id" := by
  refine ⟨rfl, rfl, rfl, rfl, ?_⟩
  decide

/-- C5 amended: a device is matched against the desired id through the
single identifier `device.deviceId || device.id`: when the primary
attribute is non-empty it alone is compared and the secondary attribute
is ignored; the secondary attribute is consulted only when the primary
one is empty or absent. -/
theorem device_match_primary_then_secondary (device : MediaDeviceInfo) (target : String) :
    (device.deviceId ≠ "" → (deviceIdOrId device = target ↔ device.deviceId = target))
  ∧ (device.deviceId = "" → (deviceIdOrId device = target ↔ device.id = target)) := by
  unfold deviceIdOrId
  constructor
  · intro h
    rw [if_neg h]
  · intro h
    rw [if_pos h]

/-- Witness for the amended C5 on concrete devices: a non-empty primary
identifier is the only attribute compared, and an empty primary makes
the comparison fall through to the secondary attribute. -/
theorem device_match_primary_then_secondary_witness :
    (legacyDevice.deviceId ≠ ""
      ∧ (deviceIdOrId legacyDevice = "legacy-id" ↔ legacyDevice.deviceId = "legacy-id"))
  ∧ (({ legacyDevice with deviceId := "" } : MediaDeviceInfo).deviceId = ""
      ∧ (deviceIdOrId { legacyDevice with deviceId := "" } = "legacy-id"
          ↔ ({ legacyDevice with deviceId := "" } : MediaDeviceInfo).id = "legacy-id")) :=
  ⟨⟨by decide, (device_match_primary_then_secondary legacyDevice "legacy-id").1 (by decide)⟩,
   ⟨rfl, (device_match_primary_then_secondary { legacyDevice with deviceId := "" } "legacy-id").2 rfl⟩⟩

/-- C6: when the desktop-capturer capability is absent, `getScreenSources`
fails with the distinguishable capability-unavailable error — not an
empty success — and in every failure case the handler state, in
particular the stored screen-input list, is exactly what it was before
the call. -/
theorem screen_sources_failure_frame (st : HandlerState)
    (desktopCapturer : Option (DesktopCapturerOptions → Except String (List MediaDeviceInfo))) :
    (desktopCapturer = none →
      getScreenSources st desktopCapturer = (st, .error .capabilityUnavailable))
  ∧ (∀ e, (getScreenSources st desktopCapturer).2 = .error e →
      (getScreenSources st desktopCapturer).1 = st) := by
  constructor
  · intro h
    subst h
    rfl
  · intro e
    cases desktopCapturer with
    | none => intro _; rfl
    | some getSources =>
      cases h : getSources screenSourceOptions with
      | error message =>
        intro _
        simp [getScreenSources, h]
      | ok screenSources =>
        intro hc
        simp [getScreenSources, h] at hc

/-- Witness for C6 at a concrete state with the capability absent: the
call fails with the capability-unavailable error and the state is
returned unchanged. -/
theorem screen_sources_failure_frame_witness :
    getScreenSources emptyHandlerState none = (emptyHandlerState, .error .capabilityUnavailable)
  ∧ (getScreenSources emptyHandlerState none).1 = emptyHandlerState :=
  ⟨(screen_sources_failure_frame emptyHandlerState none).1 rfl,
   (screen_sources_failure_frame emptyHandlerState none).2 .capabilityUnavailable rfl⟩

/-- The persistence-store key of each category, as written literally in
the constructor and in `_subscribeToObservables`. -/
def deviceTypeKey : DeviceTypes → MediaDeviceType
  | .audioInput => .AUDIO_INPUT
  | .audioOutput => .AUDIO_OUTPUT
  | .screenInput => .SCREEN_INPUT
  | .videoInput => .VIDEO_INPUT

/-- C7: at construction the desired id of every category is initialized
from the persistence store under the category key, and when the store
holds no value for that key the in-memory desired id is the empty
string. -/
theorem constructor_loads_desired_ids (store : Store) (deviceType : DeviceTypes) :
    ((mkMediaDevicesHandler store).currentDeviceId.get deviceType
        = loadValue store (deviceTypeKey deviceType))
  ∧ (store (deviceTypeKey deviceType) = none →
      (mkMediaDevicesHandler store).currentDeviceId.get deviceType = "") := by
  constructor
  · cases deviceType <;> rfl
  · intro h
    cases deviceType <;>
      simp [mkMediaDevicesHandler, DeviceIds.get, loadValue, deviceTypeKey] at h ⊢ <;>
      simp [h]

/-- Witness for C7 on the store holding no values at all: the audio-input
desired id comes out as the empty string. -/
theorem constructor_loads_desired_ids_witness :
    ((fun _ => none : Store) (deviceTypeKey .audioInput) = none)
  ∧ (mkMediaDevicesHandler (fun _ => none)).currentDeviceId.get .audioInput = "" :=
  ⟨rfl, (constructor_loads_desired_ids (fun _ => none) .audioInput).2 rfl⟩

/-- C10: persistence subscriptions exist exactly for audio input, audio
output and video input — none for screen input — so any sequence of
screen-input selection updates leaves the stored screen-input value
exactly what it was before. -/
theorem screen_selection_never_persisted (s : SystemState) (ids : List String) :
    (persistenceSubscription .audioInput = some .AUDIO_INPUT
      ∧ persistenceSubscription .audioOutput = some .AUDIO_OUTPUT
      ∧ persistenceSubscription .videoInput = some .VIDEO_INPUT
      ∧ persistenceSubscription .screenInput = none)
  ∧ (ids.foldl (fun acc mediaDeviceId => setCurrentDeviceId acc .screenInput mediaDeviceId) s).store
      MediaDeviceType.SCREEN_INPUT = s.store MediaDeviceType.SCREEN_INPUT := by
  refine ⟨⟨rfl, rfl, rfl, rfl⟩, ?_⟩
  induction ids generalizing s with
  | nil => rfl
  | cons x xs ih => exact (ih (setCurrentDeviceId s .screenInput x)).trans rfl
